import Mathlib

/-
Verification of the Audio Debugger editor extension (src/extension.js).

The extension registers three commands (readAloud, aiDebugging, aiExplanation),
two completion-client functions (getOpenAIDebugging, getOpenAIExplanation), a
presenter (presentResponseOptions), a credential prompt (storeApiKey) and a
speech helper (readTextAloud).

Shallow embedding: each JavaScript function becomes a Lean function from the
inputs the host environment supplies (active editor and selection, stored
secret, answers to interactive prompts, outcome of the axios network call) to
its return value together with the list of observable effects it performs, in
order.  JavaScript truthiness of optional strings (undefined or the empty
string are falsy) is modelled by jsTruthy.
-/

namespace AudioDebugger

/-- One entry of the messages array in the chat-completion request payload. -/
structure ChatMessage where
  role : String
  content : String
deriving DecidableEq

/-- The JSON payload posted to the completion endpoint: a model name and an
ordered list of messages. -/
structure RequestData where
  model : String
  messages : List ChatMessage
deriving DecidableEq

/-- The message object inside one choice of the completion response body. -/
structure RespMessage where
  content : String
deriving DecidableEq

/-- One element of the choices array of the response body.  A missing message
field is modelled by none; reading it in JavaScript would throw. -/
structure RespChoice where
  message : Option RespMessage
deriving DecidableEq

/-- The response body (response.data).  choices = none models a body with no
choices field at all; reading index 0 of it in JavaScript would throw. -/
structure ApiResponse where
  choices : Option (List RespChoice)
deriving DecidableEq

/-- Outcome of the awaited axios.post call: a 2xx reply with a parsed body, a
non-2xx status (axios throws), or no response at all (axios throws). -/
inductive AxiosOutcome where
  | ok (data : ApiResponse)
  | httpError (status : Nat)
  | networkError
deriving DecidableEq

/-- Observable effects of the extension, in the order the code performs them:
vscode.window.showInformationMessage, say.speak, the axios.post request (with
its URL, header list and JSON payload), the debugging-query input box, the
API-key input box, the presenter quick pick, and secrets.store. -/
inductive Event where
  | showMessage (s : String)
  | speak (s : String)
  | httpPost (url : String) (headers : List (String × String)) (body : RequestData)
  | promptQuery
  | promptApiKey
  | quickPick
  | secretStore (key : String) (value : String)
deriving DecidableEq

/-- Event is a network request. -/
def Event.isHttpPost : Event → Bool
  | Event.httpPost _ _ _ => true
  | _ => false

/-- Event is a speech-synthesis call. -/
def Event.isSpeak : Event → Bool
  | Event.speak _ => true
  | _ => false

/-- Event is an informational message shown to the user. -/
def Event.isShowMessage : Event → Bool
  | Event.showMessage _ => true
  | _ => false

/-- Event is the interactive API-key prompt. -/
def Event.isPromptApiKey : Event → Bool
  | Event.promptApiKey => true
  | _ => false

/-- Event is a write to the secret store. -/
def Event.isSecretStore : Event → Bool
  | Event.secretStore _ _ => true
  | _ => false

/-- Event is the presenter quick pick. -/
def Event.isQuickPick : Event → Bool
  | Event.quickPick => true
  | _ => false

/-- JavaScript truthiness of an optional string: undefined (none) and the
empty string are falsy, every other string is truthy. -/
def jsTruthy : Option String → Bool
  | none => false
  | some s => s ≠ ""

/-- The JavaScript String.prototype.trim call on the selection: drops leading
and trailing whitespace characters. -/
def jsTrim (s : String) : String :=
  ⟨((s.data.dropWhile Char.isWhitespace).reverse.dropWhile Char.isWhitespace).reverse⟩

/-- The fixed completion endpoint used by both client functions. -/
def completionsUrl : String := "https://api.openai.com/v1/chat/completions"

/-- The JavaScript expression response.data.choices[0].message.content inside
the try block: some content when every step succeeds, none when a step throws
(no choices field, empty choices array, or missing message). -/
def extractFirstChoiceContent (r : ApiResponse) : Option String :=
  match r.choices with
  | none => none
  | some [] => none
  | some (c :: _) =>
      match c.message with
      | none => none
      | some m => some m.content

/-- The request payload built by getOpenAIDebugging (extension.js lines
94-106): fixed model, a fixed system message, then a user message made of the
query, a newline header and the code. -/
def debuggingData (code query : String) : RequestData :=
  ⟨"gpt-3.5-turbo",
    [⟨"system",
      "You are a helpful assistant capable of providing debugging assistance and code fixes."⟩,
     ⟨"user", query ++ "\nHere is the code:\n" ++ code⟩]⟩

/-- The request payload built by getOpenAIExplanation (extension.js lines
142-154): fixed model, a fixed system message, then a user message made of a
fixed instruction followed by the code. -/
def explanationData (code : String) : RequestData :=
  ⟨"gpt-3.5-turbo",
    [⟨"system", "You are a helpful assistant."⟩,
     ⟨"user", "Explain what is happening in this code:\n" ++ code⟩]⟩

/-- The header list of the debugging request (extension.js lines 110-113).
The template literal places a single space between Bearer and the key. -/
def debuggingHeaders (apiKey : String) : List (String × String) :=
  [("Authorization", "Bearer " ++ apiKey), ("Content-Type", "application/json")]

/-- The header list of the explanation request (extension.js lines 158-160).
The template literal places two spaces between Bearer and the key. -/
def explanationHeaders (apiKey : String) : List (String × String) :=
  [("Authorization", "Bearer  " ++ apiKey)]

/-- storeApiKey (extension.js lines 185-193): shows the API-key input box and,
when the entered value is truthy, stores it under the fixed name openAIKey.
keyAnswer is what the input box resolves to (none = dismissed). -/
def storeApiKey (keyAnswer : Option String) : List Event :=
  match keyAnswer with
  | none => [Event.promptApiKey]
  | some k =>
      if k = "" then [Event.promptApiKey]
      else [Event.promptApiKey, Event.secretStore "openAIKey" k]

/-- getOpenAIDebugging (extension.js lines 86-121).  storedKey is what
secrets.get resolves to; keyAnswer is what the API-key input box would resolve
to if shown; ax is the network outcome.  Returns the string result and the
effect trace. -/
def getOpenAIDebugging (code query : String) (storedKey keyAnswer : Option String)
    (ax : AxiosOutcome) : String × List Event :=
  if jsTruthy storedKey then
    let apiKey := storedKey.getD ""
    let ev := Event.httpPost completionsUrl (debuggingHeaders apiKey) (debuggingData code query)
    match ax with
    | AxiosOutcome.ok resp =>
        match extractFirstChoiceContent resp with
        | some content => (content, [ev])
        | none => ("Failed to get debugging help from OpenAI.", [ev])
    | AxiosOutcome.httpError _ => ("Failed to get debugging help from OpenAI.", [ev])
    | AxiosOutcome.networkError => ("Failed to get debugging help from OpenAI.", [ev])
  else
    ("Please enter your OpenAI API key.", storeApiKey keyAnswer)

/-- getOpenAIExplanation (extension.js lines 132-180).  Same shape as the
debugging client but with its own payload, header list and fallback string. -/
def getOpenAIExplanation (code : String) (storedKey keyAnswer : Option String)
    (ax : AxiosOutcome) : String × List Event :=
  if jsTruthy storedKey then
    let apiKey := storedKey.getD ""
    let ev := Event.httpPost completionsUrl (explanationHeaders apiKey) (explanationData code)
    match ax with
    | AxiosOutcome.ok resp =>
        match extractFirstChoiceContent resp with
        | some content => (content, [ev])
        | none => ("Failed to get explanation from OpenAI.", [ev])
    | AxiosOutcome.httpError _ => ("Failed to get explanation from OpenAI.", [ev])
    | AxiosOutcome.networkError => ("Failed to get explanation from OpenAI.", [ev])
  else
    ("Please enter your OpenAI API key.", storeApiKey keyAnswer)

/-- presentResponseOptions (extension.js lines 71-84): shows the quick pick,
then dispatches on the chosen item; any other outcome (dismissal included)
does nothing. -/
def presentResponseOptions (response : String) (pick : Option String) : List Event :=
  Event.quickPick ::
    (if pick = some "Show Text" then [Event.showMessage response]
     else if pick = some "Read Aloud" then [Event.speak response]
     else if pick = some "Both" then [Event.showMessage response, Event.speak response]
     else [])

/-- readTextAloud (extension.js lines 200-208): a single say.speak call; the
completion callback only logs. -/
def readTextAloud (text : String) : List Event :=
  [Event.speak text]

/-- The readAloud command handler (extension.js lines 17-25).  activeEditor is
none when no editor is active, otherwise it carries the selection text. -/
def readAloudCommand (activeEditor : Option String) : List Event :=
  match activeEditor with
  | none => [Event.showMessage "No editor is active"]
  | some selection => readTextAloud selection

/-- The aiDebugging command handler (extension.js lines 27-44): editor check,
query input box, falsy-query abort, then the client and the presenter. -/
def aiDebuggingCommand (activeEditor queryAnswer storedKey keyAnswer : Option String)
    (ax : AxiosOutcome) (pick : Option String) : List Event :=
  match activeEditor with
  | none => [Event.showMessage "No editor is active"]
  | some code =>
      Event.promptQuery ::
        (if jsTruthy queryAnswer then
          let query := queryAnswer.getD ""
          let res := getOpenAIDebugging code query storedKey keyAnswer ax
          res.2 ++ presentResponseOptions res.1 pick
        else
          [Event.showMessage "No debugging query provided."])

/-- The aiExplanation command handler (extension.js lines 46-59): editor
check, empty-trimmed-selection abort, then the client and the presenter. -/
def aiExplanationCommand (activeEditor storedKey keyAnswer : Option String)
    (ax : AxiosOutcome) (pick : Option String) : List Event :=
  match activeEditor with
  | none => [Event.showMessage "No editor is active"]
  | some code =>
      if jsTrim code = "" then [Event.showMessage "No code selected."]
      else
        let res := getOpenAIExplanation code storedKey keyAnswer ax
        res.2 ++ presentResponseOptions res.1 pick

/-- Remote-call failure as in the spec: a network exception, a non-2xx HTTP
status, or a 2xx body from which the first choice content cannot be read. -/
def remoteFailure : AxiosOutcome → Bool
  | AxiosOutcome.ok r => (extractFirstChoiceContent r).isNone
  | AxiosOutcome.httpError _ => true
  | AxiosOutcome.networkError => true

theorem getOpenAIDebugging_events (code query : String)
    (storedKey keyAnswer : Option String) (ax : AxiosOutcome) :
    (getOpenAIDebugging code query storedKey keyAnswer ax).2
      = if jsTruthy storedKey then
          [Event.httpPost completionsUrl (debuggingHeaders (storedKey.getD ""))
            (debuggingData code query)]
        else storeApiKey keyAnswer := by
  by_cases h : jsTruthy storedKey = true
  · cases ax with
    | ok r =>
        cases hr : extractFirstChoiceContent r <;>
          simp [getOpenAIDebugging, h, hr]
    | httpError s => simp [getOpenAIDebugging, h]
    | networkError => simp [getOpenAIDebugging, h]
  · simp only [Bool.not_eq_true] at h
    simp [getOpenAIDebugging, h]

theorem getOpenAIExplanation_events (code : String)
    (storedKey keyAnswer : Option String) (ax : AxiosOutcome) :
    (getOpenAIExplanation code storedKey keyAnswer ax).2
      = if jsTruthy storedKey then
          [Event.httpPost completionsUrl (explanationHeaders (storedKey.getD ""))
            (explanationData code)]
        else storeApiKey keyAnswer := by
  by_cases h : jsTruthy storedKey = true
  · cases ax with
    | ok r =>
        cases hr : extractFirstChoiceContent r <;>
          simp [getOpenAIExplanation, h, hr]
    | httpError s => simp [getOpenAIExplanation, h]
    | networkError => simp [getOpenAIExplanation, h]
  · simp only [Bool.not_eq_true] at h
    simp [getOpenAIExplanation, h]

theorem storeApiKey_countP_httpPost (keyAnswer : Option String) :
    (storeApiKey keyAnswer).countP Event.isHttpPost = 0 := by
  cases keyAnswer with
  | none => rfl
  | some k =>
      by_cases hk : k = "" <;>
        simp [storeApiKey, hk, List.countP_cons, Event.isHttpPost]

theorem storeApiKey_countP_prompt (keyAnswer : Option String) :
    (storeApiKey keyAnswer).countP Event.isPromptApiKey = 1 := by
  cases keyAnswer with
  | none => rfl
  | some k =>
      by_cases hk : k = "" <;>
        simp [storeApiKey, hk, List.countP_cons, Event.isPromptApiKey]

theorem presentResponseOptions_countP_httpPost (r : String) (pick : Option String) :
    (presentResponseOptions r pick).countP Event.isHttpPost = 0 := by
  unfold presentResponseOptions
  split_ifs <;> simp [List.countP_cons, Event.isHttpPost]

/-- Claim C2: for every remote-call failure (network exception, non-2xx HTTP
status, or a 2xx response body missing the choices path), both client
functions return their fixed fallback string; being total Lean functions they
never propagate an exception. -/
theorem C2_failure_fallback (code query : String) (storedKey keyAnswer : Option String)
    (ax : AxiosOutcome) (hkey : jsTruthy storedKey = true)
    (hfail : remoteFailure ax = true) :
    (getOpenAIDebugging code query storedKey keyAnswer ax).1
      = "Failed to get debugging help from OpenAI." ∧
    (getOpenAIExplanation code storedKey keyAnswer ax).1
      = "Failed to get explanation from OpenAI." := by
  cases ax with
  | ok r =>
      simp only [remoteFailure, Option.isNone_iff_eq_none] at hfail
      simp [getOpenAIDebugging, getOpenAIExplanation, hkey, hfail]
  | httpError s => simp [getOpenAIDebugging, getOpenAIExplanation, hkey]
  | networkError => simp [getOpenAIDebugging, getOpenAIExplanation, hkey]

/-- Witness for C2 at a concrete input: stored key present, network error. -/
theorem C2_failure_fallback_witness :
    (getOpenAIDebugging "x = 1" "why" (some "sk") none AxiosOutcome.networkError).1
      = "Failed to get debugging help from OpenAI." ∧
    (getOpenAIExplanation "x = 1" (some "sk") none AxiosOutcome.networkError).1
      = "Failed to get explanation from OpenAI." :=
  C2_failure_fallback "x = 1" "why" (some "sk") none AxiosOutcome.networkError
    (by decide) (by decide)

/-- Claim C3: on a successful remote call, the string each client returns (and
which the command handlers hand verbatim to presentResponseOptions) is exactly
the first choice message content of the response, in both modes. -/
theorem C3_success_verbatim (code query content : String)
    (storedKey keyAnswer : Option String) (r : ApiResponse) (pick : Option String)
    (hkey : jsTruthy storedKey = true)
    (hex : extractFirstChoiceContent r = some content)
    (hcode : jsTrim code ≠ "") (hq : query ≠ "") :
    (getOpenAIDebugging code query storedKey keyAnswer (AxiosOutcome.ok r)).1 = content ∧
    (getOpenAIExplanation code storedKey keyAnswer (AxiosOutcome.ok r)).1 = content ∧
    aiExplanationCommand (some code) storedKey keyAnswer (AxiosOutcome.ok r) pick
      = (getOpenAIExplanation code storedKey keyAnswer (AxiosOutcome.ok r)).2
          ++ presentResponseOptions content pick ∧
    aiDebuggingCommand (some code) (some query) storedKey keyAnswer (AxiosOutcome.ok r) pick
      = Event.promptQuery
          :: ((getOpenAIDebugging code query storedKey keyAnswer (AxiosOutcome.ok r)).2
              ++ presentResponseOptions content pick) := by
  have hq2 : jsTruthy (some query) = true := by simp [jsTruthy, hq]
  refine ⟨?_, ?_, ?_, ?_⟩ <;>
    simp [getOpenAIDebugging, getOpenAIExplanation, aiExplanationCommand,
      aiDebuggingCommand, hkey, hq2, hex, hcode]

/-- Witness for C3 at the spec scenario: the service returns a body whose
first choice content is the sentence about printing, and that exact sentence
is returned. -/
theorem C3_success_verbatim_witness :
    (getOpenAIDebugging "print(hi)" "why" (some "sk") none
        (AxiosOutcome.ok ⟨some [⟨some ⟨"Prints hi to stdout."⟩⟩]⟩)).1
      = "Prints hi to stdout." ∧
    (getOpenAIExplanation "print(hi)" (some "sk") none
        (AxiosOutcome.ok ⟨some [⟨some ⟨"Prints hi to stdout."⟩⟩]⟩)).1
      = "Prints hi to stdout." ∧
    aiExplanationCommand (some "print(hi)") (some "sk") none
        (AxiosOutcome.ok ⟨some [⟨some ⟨"Prints hi to stdout."⟩⟩]⟩) (some "Show Text")
      = (getOpenAIExplanation "print(hi)" (some "sk") none
          (AxiosOutcome.ok ⟨some [⟨some ⟨"Prints hi to stdout."⟩⟩]⟩)).2
          ++ presentResponseOptions "Prints hi to stdout." (some "Show Text") ∧
    aiDebuggingCommand (some "print(hi)") (some "why") (some "sk") none
        (AxiosOutcome.ok ⟨some [⟨some ⟨"Prints hi to stdout."⟩⟩]⟩) (some "Show Text")
      = Event.promptQuery
          :: ((getOpenAIDebugging "print(hi)" "why" (some "sk") none
              (AxiosOutcome.ok ⟨some [⟨some ⟨"Prints hi to stdout."⟩⟩]⟩)).2
              ++ presentResponseOptions "Prints hi to stdout." (some "Show Text")) :=
  C3_success_verbatim "print(hi)" "why" "Prints hi to stdout." (some "sk") none
    ⟨some [⟨some ⟨"Prints hi to stdout."⟩⟩]⟩ (some "Show Text")
    (by decide) rfl (by decide) (by decide)

/-- Claim C7: the presenter shown a dismissed quick pick performs no display
and no speech call, and the choice Both performs one display call and one
speech call, both with the identical text. -/
theorem C7_presenter (text : String) :
    presentResponseOptions text none = [Event.quickPick] ∧
    presentResponseOptions text (some "Both")
      = [Event.quickPick, Event.showMessage text, Event.speak text] := by
  exact ⟨rfl, rfl⟩

/-- Claim C8: when the debugging query input box is dismissed or answered with
the empty string, the aiDebugging command shows the fixed abort message and
performs neither the network call nor the presenter quick pick. -/
theorem C8_dismissed_query (code : String) (queryAnswer storedKey keyAnswer : Option String)
    (ax : AxiosOutcome) (pick : Option String)
    (h : jsTruthy queryAnswer = false) :
    aiDebuggingCommand (some code) queryAnswer storedKey keyAnswer ax pick
      = [Event.promptQuery, Event.showMessage "No debugging query provided."] := by
  simp [aiDebuggingCommand, h]

/-- Witness for C8 at a concrete input: the query prompt dismissed. -/
theorem C8_dismissed_query_witness :
    aiDebuggingCommand (some "x = 1") none (some "sk") none AxiosOutcome.networkError none
      = [Event.promptQuery, Event.showMessage "No debugging query provided."] :=
  C8_dismissed_query "x = 1" none (some "sk") none AxiosOutcome.networkError none (by decide)

/-- Claim C9: the credential prompt stores a truthy entered value under the
fixed name openAIKey, and on dismissal or empty entry performs no store write
at all. -/
theorem C9_storeApiKey (keyAnswer : Option String) :
    (∀ k, keyAnswer = some k → k ≠ "" →
        storeApiKey keyAnswer = [Event.promptApiKey, Event.secretStore "openAIKey" k]) ∧
    (jsTruthy keyAnswer = false → storeApiKey keyAnswer = [Event.promptApiKey]) := by
  constructor
  · intro k hk hne
    subst hk
    simp [storeApiKey, hne]
  · intro h
    cases keyAnswer with
    | none => rfl
    | some k =>
        have hk : k = "" := by
          by_contra hne
          simp [jsTruthy, hne] at h
        simp [storeApiKey, hk]

/-- Witness for C9 at concrete inputs: an entered key is stored, a dismissal
writes nothing. -/
theorem C9_storeApiKey_witness :
    storeApiKey (some "sk-abc") = [Event.promptApiKey, Event.secretStore "openAIKey" "sk-abc"] ∧
    storeApiKey none = [Event.promptApiKey] :=
  ⟨(C9_storeApiKey (some "sk-abc")).1 "sk-abc" rfl (by decide),
   (C9_storeApiKey none).2 (by decide)⟩

theorem storeApiKey_no_httpPost (keyAnswer : Option String) (url : String)
    (hdrs : List (String × String)) (body : RequestData) :
    Event.httpPost url hdrs body ∉ storeApiKey keyAnswer := by
  cases keyAnswer with
  | none => simp [storeApiKey]
  | some k => by_cases hk : k = "" <;> simp [storeApiKey, hk]

/-- Claim C4: when no API key is stored (or the stored value is falsy), both
client functions return the placeholder string, send no network request, and
invoke the credential prompt exactly once. -/
theorem C4_missing_key (code query : String) (storedKey keyAnswer : Option String)
    (ax : AxiosOutcome) (h : jsTruthy storedKey = false) :
    (getOpenAIDebugging code query storedKey keyAnswer ax).1
      = "Please enter your OpenAI API key." ∧
    (getOpenAIExplanation code storedKey keyAnswer ax).1
      = "Please enter your OpenAI API key." ∧
    (getOpenAIDebugging code query storedKey keyAnswer ax).2.countP Event.isHttpPost = 0 ∧
    (getOpenAIExplanation code storedKey keyAnswer ax).2.countP Event.isHttpPost = 0 ∧
    (getOpenAIDebugging code query storedKey keyAnswer ax).2.countP Event.isPromptApiKey = 1 ∧
    (getOpenAIExplanation code storedKey keyAnswer ax).2.countP Event.isPromptApiKey = 1 := by
  refine ⟨?_, ?_, ?_, ?_, ?_, ?_⟩ <;>
    simp [getOpenAIDebugging, getOpenAIExplanation, h,
      storeApiKey_countP_httpPost, storeApiKey_countP_prompt]

/-- Witness for C4 at a concrete input: no stored key, prompt dismissed. -/
theorem C4_missing_key_witness :
    (getOpenAIDebugging "x = 1" "why" none none AxiosOutcome.networkError).1
      = "Please enter your OpenAI API key." ∧
    (getOpenAIExplanation "x = 1" none none AxiosOutcome.networkError).1
      = "Please enter your OpenAI API key." ∧
    (getOpenAIDebugging "x = 1" "why" none none AxiosOutcome.networkError).2.countP
        Event.isHttpPost = 0 ∧
    (getOpenAIExplanation "x = 1" none none AxiosOutcome.networkError).2.countP
        Event.isHttpPost = 0 ∧
    (getOpenAIDebugging "x = 1" "why" none none AxiosOutcome.networkError).2.countP
        Event.isPromptApiKey = 1 ∧
    (getOpenAIExplanation "x = 1" none none AxiosOutcome.networkError).2.countP
        Event.isPromptApiKey = 1 :=
  C4_missing_key "x = 1" "why" none none AxiosOutcome.networkError (by decide)

/-- Claim C10: with no key stored, even when the user enters a nonempty key at
the prompt (so a store write occurs), the current invocation still returns the
placeholder and sends no request; an invocation that reads that key from the
store does send exactly one request. -/
theorem C10_stale_key (code query k : String) (storedKey : Option String)
    (ax : AxiosOutcome) (h : jsTruthy storedKey = false) (hk : k ≠ "") :
    Event.secretStore "openAIKey" k ∈ (getOpenAIDebugging code query storedKey (some k) ax).2 ∧
    (getOpenAIDebugging code query storedKey (some k) ax).1
      = "Please enter your OpenAI API key." ∧
    (getOpenAIDebugging code query storedKey (some k) ax).2.countP Event.isHttpPost = 0 ∧
    Event.secretStore "openAIKey" k ∈ (getOpenAIExplanation code storedKey (some k) ax).2 ∧
    (getOpenAIExplanation code storedKey (some k) ax).1
      = "Please enter your OpenAI API key." ∧
    (getOpenAIExplanation code storedKey (some k) ax).2.countP Event.isHttpPost = 0 ∧
    (getOpenAIDebugging code query (some k) none ax).2.countP Event.isHttpPost = 1 ∧
    (getOpenAIExplanation code (some k) none ax).2.countP Event.isHttpPost = 1 := by
  have hk2 : jsTruthy (some k) = true := by simp [jsTruthy, hk]
  have hd2 := getOpenAIDebugging_events code query (some k) none ax
  have he2 := getOpenAIExplanation_events code (some k) none ax
  simp only [hk2, if_true] at hd2 he2
  refine ⟨?_, ?_, ?_, ?_, ?_, ?_, ?_, ?_⟩
  · simp [getOpenAIDebugging, h, storeApiKey, hk]
  · simp [getOpenAIDebugging, h]
  · simp [getOpenAIDebugging, h, storeApiKey_countP_httpPost]
  · simp [getOpenAIExplanation, h, storeApiKey, hk]
  · simp [getOpenAIExplanation, h]
  · simp [getOpenAIExplanation, h, storeApiKey_countP_httpPost]
  · simp [hd2, List.countP_cons, Event.isHttpPost]
  · simp [he2, List.countP_cons, Event.isHttpPost]

/-- Witness for C10 at a concrete input: no stored key, the user enters a key,
and a later invocation reads it. -/
theorem C10_stale_key_witness :
    Event.secretStore "openAIKey" "sk-new"
        ∈ (getOpenAIDebugging "x" "q" none (some "sk-new") AxiosOutcome.networkError).2 ∧
    (getOpenAIDebugging "x" "q" none (some "sk-new") AxiosOutcome.networkError).1
      = "Please enter your OpenAI API key." ∧
    (getOpenAIDebugging "x" "q" none (some "sk-new") AxiosOutcome.networkError).2.countP
        Event.isHttpPost = 0 ∧
    Event.secretStore "openAIKey" "sk-new"
        ∈ (getOpenAIExplanation "x" none (some "sk-new") AxiosOutcome.networkError).2 ∧
    (getOpenAIExplanation "x" none (some "sk-new") AxiosOutcome.networkError).1
      = "Please enter your OpenAI API key." ∧
    (getOpenAIExplanation "x" none (some "sk-new") AxiosOutcome.networkError).2.countP
        Event.isHttpPost = 0 ∧
    (getOpenAIDebugging "x" "q" (some "sk-new") none AxiosOutcome.networkError).2.countP
        Event.isHttpPost = 1 ∧
    (getOpenAIExplanation "x" (some "sk-new") none AxiosOutcome.networkError).2.countP
        Event.isHttpPost = 1 :=
  C10_stale_key "x" "q" "sk-new" none AxiosOutcome.networkError (by decide) (by decide)

/-- Claim C6: every chat-completion request either client posts carries a
message list whose roles are exactly the system role followed by the user
role. -/
theorem C6_message_roles (code query : String) (storedKey keyAnswer : Option String)
    (ax : AxiosOutcome) (url : String) (hdrs : List (String × String)) (body : RequestData)
    (h : Event.httpPost url hdrs body ∈ (getOpenAIDebugging code query storedKey keyAnswer ax).2
       ∨ Event.httpPost url hdrs body ∈ (getOpenAIExplanation code storedKey keyAnswer ax).2) :
    body.messages.map ChatMessage.role = ["system", "user"] := by
  have hd := getOpenAIDebugging_events code query storedKey keyAnswer ax
  have he := getOpenAIExplanation_events code storedKey keyAnswer ax
  by_cases hs : jsTruthy storedKey = true
  · simp only [hs, if_true] at hd he
    rcases h with h | h
    · rw [hd] at h
      simp only [List.mem_singleton, Event.httpPost.injEq] at h
      rcases h with ⟨-, -, hb⟩
      subst hb
      rfl
    · rw [he] at h
      simp only [List.mem_singleton, Event.httpPost.injEq] at h
      rcases h with ⟨-, -, hb⟩
      subst hb
      rfl
  · simp only [Bool.not_eq_true] at hs
    simp only [hs, Bool.false_eq_true, if_false] at hd he
    rcases h with h | h
    · rw [hd] at h
      exact absurd h (storeApiKey_no_httpPost keyAnswer url hdrs body)
    · rw [he] at h
      exact absurd h (storeApiKey_no_httpPost keyAnswer url hdrs body)

/-- Witness for C6 at a concrete input: the debugging request actually posted
with a stored key. -/
theorem C6_message_roles_witness :
    (debuggingData "x" "q").messages.map ChatMessage.role = ["system", "user"] :=
  C6_message_roles "x" "q" (some "sk") none AxiosOutcome.networkError completionsUrl
    (debuggingHeaders "sk") (debuggingData "x" "q")
    (Or.inl (by simp [getOpenAIDebugging, jsTruthy]))

/-- Claim C1 counterexample: on the empty selection, the readAloud command
performs a speech call (with the empty string) and shows no informational
message, contradicting the claim that no speech call is issued and a message
is shown for all three commands. -/
theorem C1_counterexample :
    readAloudCommand (some "") = [Event.speak ""] ∧
    ¬ (∀ e ∈ readAloudCommand (some ""), e.isSpeak = false) ∧
    ¬ (∃ e ∈ readAloudCommand (some ""), e.isShowMessage = true) := by
  refine ⟨rfl, ?_, ?_⟩
  · intro hall
    exact absurd (hall (Event.speak "") (by simp [readAloudCommand, readTextAloud]))
      (by simp [Event.isSpeak])
  · rintro ⟨e, he, hm⟩
    simp only [readAloudCommand, readTextAloud, List.mem_singleton] at he
    subst he
    simp [Event.isShowMessage] at hm

/-- Claim C1 amended: only the aiExplanation command guards empty or
whitespace-only selections (fixed message, no network, no speech); the
readAloud command passes such a selection unchanged to the speech call with no
message, and the aiDebugging command, given a nonempty query and a stored key,
still sends the network request. -/
theorem C1_empty_selection (code query : String) (storedKey keyAnswer : Option String)
    (ax : AxiosOutcome) (pick : Option String)
    (h : jsTrim code = "") (hq : query ≠ "") :
    aiExplanationCommand (some code) storedKey keyAnswer ax pick
      = [Event.showMessage "No code selected."] ∧
    readAloudCommand (some code) = [Event.speak code] ∧
    (jsTruthy storedKey = true →
      (aiDebuggingCommand (some code) (some query) storedKey keyAnswer ax pick).countP
          Event.isHttpPost = 1) := by
  refine ⟨by simp [aiExplanationCommand, h], rfl, ?_⟩
  intro hs
  have hq2 : jsTruthy (some query) = true := by simp [jsTruthy, hq]
  have hd := getOpenAIDebugging_events code query storedKey keyAnswer ax
  simp only [hs, if_true] at hd
  simp [aiDebuggingCommand, hq2, hd, List.countP_cons, List.countP_append,
    Event.isHttpPost, presentResponseOptions_countP_httpPost]

/-- Witness for C1 amended at a concrete input: a whitespace-only selection
with a stored key and a nonempty query. -/
theorem C1_empty_selection_witness :
    aiExplanationCommand (some " ") (some "sk") none AxiosOutcome.networkError none
      = [Event.showMessage "No code selected."] ∧
    readAloudCommand (some " ") = [Event.speak " "] ∧
    (aiDebuggingCommand (some " ") (some "q") (some "sk") none
        AxiosOutcome.networkError none).countP Event.isHttpPost = 1 :=
  ⟨(C1_empty_selection " " "q" (some "sk") none AxiosOutcome.networkError none
      (by decide) (by decide)).1,
   (C1_empty_selection " " "q" (some "sk") none AxiosOutcome.networkError none
      (by decide) (by decide)).2.1,
   (C1_empty_selection " " "q" (some "sk") none AxiosOutcome.networkError none
      (by decide) (by decide)).2.2 (by decide)⟩

/-- Claim C5 counterexample: the explanation request posts an Authorization
header with two spaces between Bearer and the key, which differs from the
claimed Bearer-single-space-key format. -/
theorem C5_counterexample :
    (getOpenAIExplanation "x" (some "KEY") none AxiosOutcome.networkError).2
      = [Event.httpPost completionsUrl [("Authorization", "Bearer  KEY")]
          (explanationData "x")] ∧
    "Bearer  KEY" ≠ "Bearer " ++ "KEY" := by
  exact ⟨rfl, by decide⟩

/-- Claim C5 amended: with a truthy stored key, the debugging request carries
Authorization set to Bearer, one space and the key (plus a Content-Type
header), while the explanation request carries Authorization set to Bearer,
two spaces and the key. -/
theorem C5_bearer_headers (code query key : String) (keyAnswer : Option String)
    (ax : AxiosOutcome) (hk : key ≠ "") :
    (getOpenAIDebugging code query (some key) keyAnswer ax).2
      = [Event.httpPost completionsUrl
          [("Authorization", "Bearer " ++ key), ("Content-Type", "application/json")]
          (debuggingData code query)] ∧
    (getOpenAIExplanation code (some key) keyAnswer ax).2
      = [Event.httpPost completionsUrl [("Authorization", "Bearer  " ++ key)]
          (explanationData code)] := by
  have hk2 : jsTruthy (some key) = true := by simp [jsTruthy, hk]
  have hd := getOpenAIDebugging_events code query (some key) keyAnswer ax
  have he := getOpenAIExplanation_events code (some key) keyAnswer ax
  simp only [hk2, if_true] at hd he
  exact ⟨by rw [hd]; rfl, by rw [he]; rfl⟩

/-- Witness for C5 amended at a concrete input. -/
theorem C5_bearer_headers_witness :
    (getOpenAIDebugging "x" "q" (some "sk") none AxiosOutcome.networkError).2
      = [Event.httpPost completionsUrl
          [("Authorization", "Bearer " ++ "sk"), ("Content-Type", "application/json")]
          (debuggingData "x" "q")] ∧
    (getOpenAIExplanation "x" (some "sk") none AxiosOutcome.networkError).2
      = [Event.httpPost completionsUrl [("Authorization", "Bearer  " ++ "sk")]
          (explanationData "x")] :=
  C5_bearer_headers "x" "q" "sk" none AxiosOutcome.networkError (by decide)

end AudioDebugger
